import Mathlib

/-!
Verification development for the ML pipeline stages in
`src/backend/src/ml-pipeline/stages/` (data_ingestion.py, preprocessing.py,
model_training.py, evaluation.py, deployment.py).

The Python stages are shallowly embedded as executable Lean definitions:

* numeric cell values (Python/numpy floats) are modelled as rationals `ℚ`;
  a missing cell (NaN) is `Option.none`;
* a pandas DataFrame is a list of named, dtype-tagged columns;
* the filesystem artifact store is modelled by the list of artifact paths,
  relative to the configured output root (every path the code builds is the
  output root joined with a stage-fixed relative name, so the root prefix
  carries no information);
* a Python exception reaching a stage's `try/except` boundary is an explicit
  error value; the `except` handler's behaviour (printed lines, structured
  stderr record, returned flag, process exit code) is transcribed per stage.

Opaque library computations that no claim observes (RandomForest fitting,
metric evaluation, the seeded shuffle inside `train_test_split`, pickled blob
contents, the standardised cell values produced by `StandardScaler`) are not
modelled beyond their control-flow effects (which files get written, in which
order, and which validation errors they raise).
-/

namespace AIPipeline

/-! ### Problem-type classifier (model_training.py, lines 25-69) -/

/-- Prefix test on character lists (kernel-reducible form of `startswith`). -/
def chars_prefix : List Char → List Char → Bool
  | [], _ => true
  | _ :: _, [] => false
  | a :: as, b :: bs => a == b && chars_prefix as bs

/-- Substring occurrence on character lists. -/
def chars_contains_float : List Char → Bool
  | [] => false
  | c :: cs => chars_prefix "float".data (c :: cs) || chars_contains_float cs

/-- Transcribes `data_type.startswith('float') or 'float' in data_type`
(model_training.py line 32). -/
def is_float_dtype (s : String) : Bool :=
  chars_prefix "float".data s.data || chars_contains_float s.data

/-- The dtype list of model_training.py line 45. -/
def int_obj_dtypes : List String := ["int64", "int32", "object", "category"]

/-- Shallow embedding of `determine_problem_type` (model_training.py,
lines 25-69).  `values` is the target column, `dtype` the string form of its
storage type.  `none` models the `ZeroDivisionError` raised at line 40
(`unique_ratio = n_unique / n_samples`) when the target is empty; note that
line 40 executes before the dtype dispatch of line 45, so every empty
non-float target raises. -/
def determine_problem_type {α : Type} [DecidableEq α]
    (dtype : String) (values : List α) : Option String :=
  if is_float_dtype dtype then some "regression"
  else
    let n_unique := values.dedup.length
    let n_samples := values.length
    if n_samples = 0 then none
    else if dtype ∈ int_obj_dtypes then
      if n_unique ≤ 10 then some "classification"
      else if n_unique > 50 then some "regression"
      else if (n_unique : ℚ) / (n_samples : ℚ) > 1 / 2 then some "regression"
      else some "classification"
    else some "classification"

/-! ### Performance grader (evaluation.py, lines 169-175) -/

/-- Shallow embedding of the grade assignment of evaluation.py lines 170-173:
for a classification run the metric is the test accuracy, for every other
problem type it is the test R².  Metric values are modelled as rationals. -/
def performance_grade (problem_type : String) (metric : ℚ) : String :=
  if problem_type = "classification" then
    if metric > 9 / 10 then "Excellent"
    else if metric > 8 / 10 then "Good"
    else if metric > 7 / 10 then "Fair"
    else "Poor"
  else
    if metric > 9 / 10 then "Excellent"
    else if metric > 8 / 10 then "Good"
    else if metric > 6 / 10 then "Fair"
    else "Poor"

/-! ### Model selector (model_training.py, lines 71-93) -/

/-- Hyperparameter map passed as keyword arguments to an estimator
constructor. -/
abbrev HyperParams := List (String × String)

/-- The `model` section of the configuration mapping: `model_config.get` with
a default is modelled by `Option.getD`. -/
structure ModelSection where
  algorithm : Option String
  parameters : Option HyperParams
  test_size : Option ℚ
  random_state : Option ℤ
deriving DecidableEq

/-- An estimator handle: which sklearn class was constructed, and with which
keyword arguments. -/
inductive SkModel where
  | RandomForestClassifier (params : HyperParams)
  | LogisticRegression (params : HyperParams)
  | SVC (params : HyperParams)
  | RandomForestRegressor (params : HyperParams)
  | LinearRegression (params : HyperParams)
  | SVR (params : HyperParams)
deriving DecidableEq

/-- The keyword arguments an estimator was constructed with. -/
def SkModel.hyper : SkModel → HyperParams
  | .RandomForestClassifier p => p
  | .LogisticRegression p => p
  | .SVC p => p
  | .RandomForestRegressor p => p
  | .LinearRegression p => p
  | .SVR p => p

/-- Shallow embedding of `get_model` (model_training.py, lines 71-93). -/
def get_model (model_config : ModelSection) (problem_type : String) : SkModel :=
  let algorithm := model_config.algorithm.getD "random_forest"
  let parameters := model_config.parameters.getD []
  if problem_type = "classification" then
    if algorithm = "random_forest" then .RandomForestClassifier parameters
    else if algorithm = "logistic_regression" then .LogisticRegression parameters
    else if algorithm = "svm" then .SVC parameters
    else .RandomForestClassifier parameters
  else
    if algorithm = "random_forest" then .RandomForestRegressor parameters
    else if algorithm = "linear_regression" then .LinearRegression parameters
    else if algorithm = "svm" then .SVR parameters
    else .RandomForestRegressor parameters

/-! ### DataFrame model (preprocessing.py) -/

/-- A DataFrame column: numeric (`int64`/`float64`) cells are rationals,
object (string) cells are strings; `none` is a missing value (NaN). -/
inductive Col where
  | num (vals : List (Option ℚ))
  | str (vals : List (Option String))
deriving DecidableEq

/-- Is this an object-dtype column (`select_dtypes(include=['object'])`)? -/
def Col.is_object : Col → Bool
  | .num _ => false
  | .str _ => true

/-- Is this a numeric-dtype column (`select_dtypes(include=[np.number])`)? -/
def Col.is_number : Col → Bool
  | .num _ => true
  | .str _ => false

/-- Does the column contain a missing value (NaN)? -/
def Col.has_missing : Col → Bool
  | .num vs => vs.any (·.isNone)
  | .str vs => vs.any (·.isNone)

/-- A rectangular table of named, dtype-tagged columns, in column order. -/
structure DataFrame where
  cols : List (String × Col)
deriving DecidableEq

/-- Column names, in order (`df.columns`). -/
def DataFrame.columns (df : DataFrame) : List String := df.cols.map Prod.fst

/-- `df.drop(columns=[n])`. -/
def DataFrame.drop (df : DataFrame) (n : String) : DataFrame :=
  ⟨df.cols.filter (fun p => p.1 ≠ n)⟩

/-- `df[n]` (first column of that name; CSV headers are unique). -/
def DataFrame.getCol (df : DataFrame) (n : String) : Col :=
  ((df.cols.find? (fun p => p.1 = n)).map Prod.snd).getD (.num [])

/-- Names of the object-dtype columns, in order. -/
def object_columns (df : DataFrame) : List String :=
  (df.cols.filter (fun p => p.2.is_object)).map Prod.fst

/-- Names of the numeric-dtype columns, in order. -/
def number_columns (df : DataFrame) : List String :=
  (df.cols.filter (fun p => p.2.is_number)).map Prod.fst

/-! ### Target-column selection (preprocessing.py, lines 37-51) -/

/-- The candidate target names tried in order (preprocessing.py line 41). -/
def potential_targets : List String := ["target", "label", "y", "class"]

/-- Transcribes preprocessing.py lines 37-51: prefer the column named
`target`; otherwise try `target`, `label`, `y`, `class` in order; otherwise
fall back to the last column.  `none` models the `IndexError` that
`df.columns[-1]` raises on a table with no columns. -/
def identify_target (cols : List String) : Option String :=
  if "target" ∈ cols then some "target"
  else
    match potential_targets.find? (fun c => c ∈ cols) with
    | some c => some c
    | none => cols.getLast?

/-! ### Missing-value imputation (preprocessing.py, lines 60-63) -/

/-- Mean of the non-missing cells of a numeric column (`X.mean`); `none` when
every cell is missing (pandas yields NaN there, and filling with NaN leaves
the column unchanged). -/
def col_mean (vs : List (Option ℚ)) : Option ℚ :=
  let present := vs.filterMap id
  if present.isEmpty then none
  else some (present.sum / (present.length : ℚ))

/-- Sorted insertion for strings (ascending). -/
def insert_str_sorted (s : String) : List String → List String
  | [] => [s]
  | t :: ts => if s < t then s :: t :: ts else t :: insert_str_sorted s ts

/-- Ascending insertion sort on strings (the order used by pandas `mode()`
and numpy `unique`). -/
def sort_strings : List String → List String
  | [] => []
  | s :: ss => insert_str_sorted s (sort_strings ss)

/-- Pandas `Series.mode()[0]` for an object column: the smallest among the
most frequent non-missing values; `none` when the mode list is empty
(all cells missing). -/
def col_mode (vs : List (Option String)) : Option String :=
  let present := vs.filterMap id
  let maxCount := (present.map (fun s => present.countP (· == s))).foldr max 0
  (sort_strings
    ((present.filter (fun s => present.countP (· == s) = maxCount)).dedup)).head?

/-- `X.fillna(X.mean(numeric_only=True))` on one numeric column: every
missing cell becomes the column mean; when the mean is undefined (all cells
missing) pandas fills with NaN, leaving the column unchanged. -/
def fill_numeric (vs : List (Option ℚ)) : List (Option ℚ) :=
  match col_mean vs with
  | some m => vs.map (fun c => some (c.getD m))
  | none => vs

/-- Line 63: `X_filled[col].fillna(mode()[0] if mode nonempty else 'unknown')`
on one object column. -/
def fill_object (vs : List (Option String)) : List (Option String) :=
  vs.map (fun c => some (c.getD ((col_mode vs).getD "unknown")))

/-- Per-column imputation: numeric columns by mean, object columns by
mode-or-`"unknown"`. -/
def impute_col : Col → Col
  | .num vs => .num (fill_numeric vs)
  | .str vs => .str (fill_object vs)

/-- Transcribes preprocessing.py lines 60-63 on the whole feature table:
the numeric fill touches only numeric columns, and the loop over
`select_dtypes(include=['object'])` fills each object column
independently. -/
def handle_missing (X : DataFrame) : DataFrame :=
  ⟨X.cols.map (fun p => (p.1, impute_col p.2))⟩

/-! ### Stage boundary: errors, results, exit codes -/

/-- An exception reaching a stage's `try/except` boundary.
`precheckMissing` is an error raised by the stage's own artifact-existence
precondition check with a dedicated message (preprocessing.py lines 31-32);
`pyError` is any other exception propagating out of a library call, carrying
that exception's own message. -/
inductive StageError where
  | precheckMissing (msg : String)
  | pyError (msg : String)
deriving DecidableEq

/-- Outcome of one stage invocation: the boolean returned by the stage body
together with the artifact paths it wrote, in write order (paths are relative
to the configured output root, whose prefix is common to every path). -/
inductive StageResult (α : Type) where
  | success (val : α) (writes : List String)
  | failure (err : StageError) (writes : List String)
deriving DecidableEq

/-- The process exit code of `main`: `sys.exit(0 if success else 1)`. -/
def StageResult.exitCode {α : Type} : StageResult α → ℕ
  | .success _ _ => 0
  | .failure _ _ => 1

/-- The artifact paths written during the invocation, in order. -/
def StageResult.writtenPaths {α : Type} : StageResult α → List String
  | .success _ w => w
  | .failure _ w => w

/-- Modelled from the spec: section 4.4 requires a missing upstream
dependency to surface as "a `Failed` outcome with a distinguishable
`MissingArtifact` message, not a generic exception".  In this embedding a
failure is MissingArtifact-distinguishable exactly when it was raised by the
stage's own existence precondition check (as preprocessing.py lines 31-32 do
for the ingested dataset) rather than escaping a library read. -/
def is_missing_artifact_failure {α : Type} : StageResult α → Bool
  | .failure (.precheckMissing _) _ => true
  | _ => false

/-- The nested configuration mapping; absent keys are `none` and the code's
`.get(key, default)` calls become `Option.getD`. -/
structure PipelineConfig where
  input_path : Option String
  output_path : Option String
  model : Option ModelSection
deriving DecidableEq

/-- `config.get('model', {})`. -/
def PipelineConfig.modelSection (c : PipelineConfig) : ModelSection :=
  c.model.getD ⟨none, none, none, none⟩

/-! ### Categorical / target encoding and scaling guard
(preprocessing.py, lines 65-93) -/

/-- Pandas `astype(str)` on a cell: NaN prints as the string `nan`. -/
def astype_str (c : Option String) : String := c.getD "nan"

/-- `LabelEncoder().fit_transform(col.astype(str))` (lines 70-73): classes
are the sorted distinct values, each cell becomes the index of its class. -/
def label_encode (vs : List (Option String)) : List (Option ℚ) :=
  let classes := sort_strings ((vs.map astype_str).dedup)
  vs.map (fun c => some ((classes.indexOf (astype_str c) : ℕ) : ℚ))

/-- The encoding loop of lines 66-73: every object column is replaced in
place by its integer codes; numeric columns are untouched. -/
def encode_categoricals (X : DataFrame) : DataFrame :=
  ⟨X.cols.map (fun p =>
    match p.2 with
    | .str vs => (p.1, Col.num (label_encode vs))
    | c => (p.1, c))⟩

/-- `target_encoder.fit_transform(y)` for an object-dtype target
(lines 87-90): classes are the sorted distinct present values. -/
def target_encode (vs : List (Option String)) : List (Option ℚ) :=
  let classes := sort_strings (vs.filterMap id).dedup
  vs.map (fun c => c.map (fun v => ((classes.indexOf v : ℕ) : ℚ)))

/-- Lines 86-93: an object-dtype target is label-encoded (second component
`true` records that a target encoder was fitted); a numeric target is passed
through with no encoder. -/
def encode_target : Col → List (Option ℚ) × Bool
  | .str vs => (target_encode vs, true)
  | .num vs => (vs, false)

/-- `StandardScaler().fit_transform` (line 81) rejects NaN input: the guard
is true when there are numeric columns to scale and some numeric cell is
missing, in which case sklearn raises `ValueError` at fit time.  (The
standardized cell values themselves are opaque to every claim and are not
modelled.) -/
def scaler_nan_guard (X : DataFrame) : Bool :=
  !(number_columns X).isEmpty &&
    X.cols.any (fun p => p.2.is_number && p.2.has_missing)

/-! ### Stratified split guard (preprocessing.py, lines 95-101) -/

/-- Sorted insertion for rationals (ascending). -/
def insert_rat_sorted (x : ℚ) : List ℚ → List ℚ
  | [] => [x]
  | t :: ts => if x < t then x :: t :: ts else t :: insert_rat_sorted x ts

/-- Ascending insertion sort on rationals. -/
def sort_rats : List ℚ → List ℚ
  | [] => []
  | x :: xs => insert_rat_sorted x (sort_rats xs)

/-- `np.unique` over the (possibly encoded) target values: sorted distinct
present values. -/
def np_unique (vs : List (Option ℚ)) : List ℚ :=
  sort_rats (vs.filterMap id).dedup

/-- The `test_size` the split uses: `config.get('model', {}).get('test_size',
0.2)` (preprocessing.py line 96).  It is assumed to be, as in every
configuration the code defaults to, a float strictly between 0 and 1. -/
def config_test_size (cfg : PipelineConfig) : ℚ :=
  (cfg.modelSection.test_size).getD (1 / 5)

/-- sklearn `_validate_shuffle_split` with a float `test_size`:
`n_test = ceil(test_size * n_samples)`. -/
def split_n_test (ts : ℚ) (n : ℕ) : ℕ := (⌈ts * (n : ℚ)⌉).toNat

/-- The complementary train-set size, `n_train = n_samples - n_test`. -/
def split_n_train (ts : ℚ) (n : ℕ) : ℕ := n - split_n_test ts n

/-- The class-count check of sklearn's stratified splitter: stratification
is infeasible when some target class has fewer than 2 members. -/
def stratify_infeasible (ys : List (Option ℚ)) : Bool :=
  ys.dedup.any (fun v => ys.countP (fun x => decide (x = v)) < 2)

/-- The `ValueError` message sklearn raises when a class has one member. -/
def split_error_msg : String :=
  "The least populated class in y has only 1 member, which is too few. The minimum number of groups for any class cannot be less than 2."

/-- The `ValueError` message sklearn raises when fitting on NaN input. -/
def nan_error_msg : String := "Input contains NaN"

/-- The `ValueError` message `_validate_shuffle_split` raises when the
requested sizes leave the train set empty (`n_train == 0`); the
`test_size=...` / `train_size=...` interpolations of the original text are
omitted, as float formatting is not modelled. -/
def empty_train_msg (n : ℕ) : String :=
  "With n_samples=" ++ toString n ++ ", the resulting train set will be empty. Adjust any of the aforementioned parameters."

/-- The `ValueError` message `StratifiedShuffleSplit` raises when the train
set is smaller than the number of classes. -/
def train_size_msg (n_train n_classes : ℕ) : String :=
  "The train_size = " ++ toString n_train
    ++ " should be greater or equal to the number of classes = "
    ++ toString n_classes

/-- The `ValueError` message `StratifiedShuffleSplit` raises when the test
set is smaller than the number of classes. -/
def test_size_msg (n_test n_classes : ℕ) : String :=
  "The test_size = " ++ toString n_test
    ++ " should be greater or equal to the number of classes = "
    ++ toString n_classes

/-- The `IndexError` message of `df.columns[-1]` on a table with no
columns. -/
def index_error_msg : String :=
  "index -1 is out of bounds for axis 0 with size 0"

/-! ### Preprocessing stage (preprocessing.py, lines 22-151) -/

/-- The relative path of the ingested dataset the stage depends on
(line 29). -/
def ingested_data_path : String := "data_ingestion/ingested_data.csv"

/-- The artifact paths preprocessing writes, in source order
(lines 106-144): the four split CSVs, then the metadata JSON, then the
fitted transform pickles, each of the latter only when the corresponding
object exists. -/
def preprocessing_writes (hasScaler hasEnc hasTgt : Bool) : List String :=
  ["preprocessing/X_train.csv", "preprocessing/X_test.csv",
   "preprocessing/y_train.csv", "preprocessing/y_test.csv",
   "preprocessing/preprocessing_metadata.json"]
  ++ (if hasScaler then ["preprocessing/scaler.pkl"] else [])
  ++ (if hasEnc then ["preprocessing/label_encoders.pkl"] else [])
  ++ (if hasTgt then ["preprocessing/target_encoder.pkl"] else [])

/-- The metadata dictionary of preprocessing.py lines 117-127. -/
structure PreprocessingMetadata where
  target_column : String
  feature_columns : List String
  categorical_columns : List String
  numeric_columns : List String
  train_shape : ℕ × ℕ
  test_shape : ℕ × ℕ
  test_size : ℚ
  random_state : ℤ
  target_classes : Option (List ℚ)
deriving DecidableEq

/-- The observable outcome of a successful preprocessing run: the persisted
metadata, the column set the scaler was fitted on, and which of the three
optional transform objects exist. -/
structure PreprocessOutcome where
  metadata : PreprocessingMetadata
  scaled_columns : List String
  has_scaler : Bool
  has_label_encoders : Bool
  has_target_encoder : Bool
deriving DecidableEq

/-- The outcome a preprocessing run that passes all guards produces,
transcribing lines 53-127.  The split sizes follow sklearn's
`train_test_split`: `n_test = ceil(test_size * n)` and the rest is training
data; the seeded row permutation is opaque (no claim observes row
membership), so only the shapes are recorded. -/
def preprocess_outcome (df : DataFrame) (cfg : PipelineConfig)
    (target_col : String) : PreprocessOutcome :=
  let X := df.drop target_col
  let X_filled := handle_missing X
  let categorical_cols := object_columns X_filled
  let X_encoded := encode_categoricals X_filled
  let numeric_cols := number_columns X_encoded
  let has_scaler := !numeric_cols.isEmpty
  let ye := encode_target (df.getCol target_col)
  let test_size := config_test_size cfg
  let random_state := (cfg.modelSection.random_state).getD 42
  let n := ye.1.length
  let n_test := split_n_test test_size n
  { metadata :=
      { target_column := target_col
        feature_columns := X.columns
        categorical_columns := categorical_cols
        numeric_columns := numeric_cols
        train_shape := (n - n_test, X.columns.length)
        test_shape := (n_test, X.columns.length)
        test_size := test_size
        random_state := random_state
        target_classes := if ye.2 then some (np_unique ye.1) else none }
    scaled_columns := if has_scaler then numeric_cols else []
    has_scaler := has_scaler
    has_label_encoders := !categorical_cols.isEmpty
    has_target_encoder := ye.2 }

/-- The fallible body of `preprocess_data` after the input file has been
read, in source order: target identification (`IndexError` on a columnless
table), imputation and encoding (infallible), scaler fit (`ValueError` on
NaN input), and the stratified split of `train_test_split` (line 99), whose
validations fire in sklearn's order: `_validate_shuffle_split` first rejects
an empty resulting train set, then `StratifiedShuffleSplit` rejects a class
with fewer than 2 members, then a train set smaller than the number of
classes, then a test set smaller than the number of classes.  All artifact
writes happen after every one of these steps. -/
def preprocess_core (df : DataFrame) (cfg : PipelineConfig) :
    Except StageError PreprocessOutcome :=
  match identify_target df.columns with
  | none => .error (.pyError index_error_msg)
  | some target_col =>
    if scaler_nan_guard (encode_categoricals (handle_missing (df.drop target_col))) then
      .error (.pyError nan_error_msg)
    else if split_n_train (config_test_size cfg)
        (encode_target (df.getCol target_col)).1.length = 0 then
      .error (.pyError (empty_train_msg (encode_target (df.getCol target_col)).1.length))
    else if stratify_infeasible (encode_target (df.getCol target_col)).1 then
      .error (.pyError split_error_msg)
    else if split_n_train (config_test_size cfg)
        (encode_target (df.getCol target_col)).1.length
        < (encode_target (df.getCol target_col)).1.dedup.length then
      .error (.pyError (train_size_msg
        (split_n_train (config_test_size cfg)
          (encode_target (df.getCol target_col)).1.length)
        (encode_target (df.getCol target_col)).1.dedup.length))
    else if split_n_test (config_test_size cfg)
        (encode_target (df.getCol target_col)).1.length
        < (encode_target (df.getCol target_col)).1.dedup.length then
      .error (.pyError (test_size_msg
        (split_n_test (config_test_size cfg)
          (encode_target (df.getCol target_col)).1.length)
        (encode_target (df.getCol target_col)).1.dedup.length))
    else
      .ok (preprocess_outcome df cfg target_col)

/-- Shallow embedding of `preprocess_data` (preprocessing.py lines 22-151).
`ingested` is the content of `data_ingestion/ingested_data.csv` when that
artifact exists: lines 31-32 check its existence first and raise a dedicated
`FileNotFoundError` with a custom message; every other exception is caught
at the stage boundary (lines 149-151) and turns into a `False` return with
nothing written. -/
def preprocess_data (ingested : Option DataFrame) (cfg : PipelineConfig) :
    StageResult PreprocessOutcome :=
  match ingested with
  | none =>
    .failure (.precheckMissing ("Ingested data not found at " ++ ingested_data_path)) []
  | some df =>
    match preprocess_core df cfg with
    | .ok o =>
      .success o (preprocessing_writes o.has_scaler o.has_label_encoders o.has_target_encoder)
    | .error e => .failure e []

/-! ### Training stage (model_training.py, lines 95-235) -/

/-- The message of the `FileNotFoundError` that `pd.read_csv` / `open`
raises for a missing file. -/
def fnf_msg (p : String) : String := "[Errno 2] No such file or directory: " ++ p

/-- The upstream artifacts `train_model` reads, in read order
(lines 104-113). -/
def training_reads : List String :=
  ["preprocessing/X_train.csv", "preprocessing/X_test.csv",
   "preprocessing/y_train.csv", "preprocessing/y_test.csv",
   "preprocessing/preprocessing_metadata.json"]

/-- The artifacts `train_model` writes on success, in source order
(lines 181-212); `model_metadata.json` is written last. -/
def model_training_writes : List String :=
  ["model_training/trained_model.pkl", "model_training/predictions.csv",
   "model_training/training_metrics.json", "model_training/model_metadata.json"]

/-- Shallow embedding of `train_model` (model_training.py lines 95-219).
`fs` is the set of artifact paths existing under the output root.  The
stage performs no existence precondition check: the first missing upstream
file makes the corresponding read raise a plain `FileNotFoundError`, caught
by the blanket `except` at line 217, with nothing yet written (the output
directory is only created at line 183, after all reads).  The training body
between the reads and the writes (fit / predict / metrics, lines 116-179)
is an opaque library computation no claim observes; it is modelled as
succeeding and persisting the four artifacts in source order. -/
def train_model (fs : List String) : StageResult Unit :=
  match training_reads.find? (fun p => !(fs.contains p)) with
  | some p => .failure (.pyError (fnf_msg p)) []
  | none => .success () model_training_writes

/-! ### Failure reporting channels (the per-stage `except` blocks) -/

/-- An output channel of the stage process. -/
inductive Channel where
  | stdout
  | stderr
deriving DecidableEq

/-- One emitted message: either a human-readable text line or a structured
JSON record with status, stage name, message and traceback fields. -/
inductive Msg where
  | text (line : String)
  | record (status stage message traceback : String)
deriving DecidableEq

/-- The failure output of `ingest_data` (data_ingestion.py lines 104-118):
two human-readable stdout lines, then one structured JSON error record on
stderr.  (The emoji prefix of the printed line is omitted.) -/
def data_ingestion_error_output (msg tb : String) : List (Channel × Msg) :=
  [(.stdout, .text ("Data ingestion failed: " ++ msg)),
   (.stdout, .text ("Full traceback:\n" ++ tb)),
   (.stderr, .record "error" "data_ingestion" msg tb)]

/-- The failure output of `preprocess_data` (preprocessing.py lines
149-151): a single human-readable stdout line, nothing on stderr. -/
def preprocessing_error_output (msg : String) : List (Channel × Msg) :=
  [(.stdout, .text ("Data preprocessing failed: " ++ msg))]

/-- The failure output of `train_model` (model_training.py lines
217-219). -/
def model_training_error_output (msg : String) : List (Channel × Msg) :=
  [(.stdout, .text ("Model training failed: " ++ msg))]

/-- The failure output of `evaluate_model` (evaluation.py lines 197-199). -/
def evaluation_error_output (msg : String) : List (Channel × Msg) :=
  [(.stdout, .text ("Model evaluation failed: " ++ msg))]

/-- The failure output of `deploy_model` (deployment.py lines 123-125). -/
def deployment_error_output (msg : String) : List (Channel × Msg) :=
  [(.stdout, .text ("Model deployment preparation failed: " ++ msg))]

/-- How many structured error records (status `error`, on the secondary
channel) an emission list contains. -/
def structured_error_records (out : List (Channel × Msg)) : ℕ :=
  out.countP (fun cm =>
    match cm with
    | (.stderr, .record "error" _ _ _) => true
    | _ => false)

end AIPipeline

namespace AIPipeline

/-- C1 counterexample: on the empty integer target the classifier does not
return `classification` although the distinct-value count (0) is at most 10 —
line 40 of model_training.py divides by the sample count before the
unique-count dispatch, so the call raises `ZeroDivisionError` instead. -/
theorem c1_empty_target_counterexample :
    ([] : List ℤ).dedup.length ≤ 10 ∧
      determine_problem_type "int64" ([] : List ℤ) ≠ some "classification" := by
  decide

/-- C1 (amended): for every NONEMPTY target column the classifier behaves as
claimed: floating-point storage types always give `regression`; for the
integer/object storage types `int64`, `int32`, `object`, `category` a
distinct-value count of at most 10 gives `classification`, more than 50 gives
`regression`, and in between the result is `regression` exactly when
distinct-count / sample-count exceeds 1/2; all other storage types give
`classification`.  (On an empty non-float target the code raises instead of
returning — see the counterexample.) -/
theorem c1_problem_type_classifier_amended
    (dtype : String) (values : List ℤ) (hne : values ≠ []) :
    (is_float_dtype dtype = true →
        determine_problem_type dtype values = some "regression") ∧
    (is_float_dtype dtype = false → dtype ∈ int_obj_dtypes →
        (values.dedup.length ≤ 10 →
          determine_problem_type dtype values = some "classification") ∧
        (values.dedup.length > 50 →
          determine_problem_type dtype values = some "regression") ∧
        (10 < values.dedup.length → values.dedup.length ≤ 50 →
          ((values.dedup.length : ℚ) / (values.length : ℚ) > 1 / 2 →
              determine_problem_type dtype values = some "regression") ∧
          ((values.dedup.length : ℚ) / (values.length : ℚ) ≤ 1 / 2 →
              determine_problem_type dtype values = some "classification"))) ∧
    (is_float_dtype dtype = false → dtype ∉ int_obj_dtypes →
        determine_problem_type dtype values = some "classification") := by
  have hlen : values.length ≠ 0 := by
    simpa using List.length_pos.mpr hne |>.ne'
  refine ⟨?_, ?_, ?_⟩
  · intro hf
    simp [determine_problem_type, hf]
  · intro hf hd
    refine ⟨?_, ?_, ?_⟩
    · intro h10
      simp [determine_problem_type, hf, hlen, hd, h10]
    · intro h50
      have : ¬ values.dedup.length ≤ 10 := by omega
      simp [determine_problem_type, hf, hlen, hd, this, h50]
    · intro hlo hhi
      have h10 : ¬ values.dedup.length ≤ 10 := by omega
      have h50 : ¬ values.dedup.length > 50 := by omega
      constructor
      · intro hr
        simp [determine_problem_type, hf, hlen, hd, h10, h50, hr] <;> linarith
      · intro hr
        have hnr : ¬ ((values.dedup.length : ℚ) / (values.length : ℚ) > 1 / 2) :=
          not_lt.mpr hr
        simp [determine_problem_type, hf, hlen, hd, h10, h50, hnr] <;> linarith
  · intro hf hd
    simp [determine_problem_type, hf, hlen, hd]

/-- C1 witness: a concrete nonempty `int64` target with 3 distinct values is
classified as `classification`. -/
theorem c1_problem_type_classifier_witness :
    ([0, 1, 2, 1, 0] : List ℤ) ≠ [] ∧
      determine_problem_type "int64" ([0, 1, 2, 1, 0] : List ℤ)
        = some "classification" :=
  ⟨by decide,
    ((c1_problem_type_classifier_amended "int64" [0, 1, 2, 1, 0]
      (by decide)).2.1 (by decide) (by decide)).1 (by decide)⟩

/-- C2: the performance grader is total and deterministic; for classification
the accuracy grades Excellent iff it exceeds 9/10, Good iff it lies in
(8/10, 9/10], Fair iff in (7/10, 8/10], Poor iff at most 7/10; for regression
the R² thresholds are 9/10, 8/10, 6/10; consequently every metric value gets
exactly one grade and boundary values resolve to the lower grade. -/
theorem c2_performance_grader (a : ℚ) :
    (performance_grade "classification" a = "Excellent" ↔ 9 / 10 < a) ∧
    (performance_grade "classification" a = "Good" ↔ 8 / 10 < a ∧ a ≤ 9 / 10) ∧
    (performance_grade "classification" a = "Fair" ↔ 7 / 10 < a ∧ a ≤ 8 / 10) ∧
    (performance_grade "classification" a = "Poor" ↔ a ≤ 7 / 10) ∧
    (performance_grade "regression" a = "Excellent" ↔ 9 / 10 < a) ∧
    (performance_grade "regression" a = "Good" ↔ 8 / 10 < a ∧ a ≤ 9 / 10) ∧
    (performance_grade "regression" a = "Fair" ↔ 6 / 10 < a ∧ a ≤ 8 / 10) ∧
    (performance_grade "regression" a = "Poor" ↔ a ≤ 6 / 10) := by
  have e1 : performance_grade "classification" a =
      if 9 / 10 < a then "Excellent" else if 8 / 10 < a then "Good"
      else if 7 / 10 < a then "Fair" else "Poor" := by
    simp [performance_grade]
  have e2 : performance_grade "regression" a =
      if 9 / 10 < a then "Excellent" else if 8 / 10 < a then "Good"
      else if 6 / 10 < a then "Fair" else "Poor" := by
    simp [performance_grade]
  rw [e1, e2]
  split_ifs with h1 h2 h3 h4 <;>
    refine ⟨?_, ?_, ?_, ?_, ?_, ?_, ?_, ?_⟩ <;>
      constructor <;>
        intro h <;>
          first
            | rfl
            | linarith
            | (exact absurd h (by decide))
            | (constructor <;> linarith)

/-- C5: for both problem types, an algorithm identifier outside the known set
for that problem type falls back to the random-forest estimator of that
problem type, and in all cases the configured parameter map is passed through
verbatim as the estimator's keyword arguments. -/
theorem c5_model_selector_fallback
    (alg : String) (params : HyperParams) (mc : ModelSection) :
    (alg ∉ ["random_forest", "logistic_regression", "svm"] →
        get_model ⟨some alg, some params, none, none⟩ "classification"
          = .RandomForestClassifier params) ∧
    (alg ∉ ["random_forest", "linear_regression", "svm"] →
        get_model ⟨some alg, some params, none, none⟩ "regression"
          = .RandomForestRegressor params) ∧
    (∀ problem_type,
        (get_model mc problem_type).hyper = mc.parameters.getD []) := by
  refine ⟨?_, ?_, ?_⟩
  · intro h
    simp only [List.mem_cons, List.mem_singleton, not_or] at h
    obtain ⟨h1, h2, h3⟩ := h
    simp [get_model, h1, h2, h3]
  · intro h
    simp only [List.mem_cons, List.mem_singleton, not_or] at h
    obtain ⟨h1, h2, h3⟩ := h
    simp [get_model, h1, h2, h3]
  · intro pt
    unfold get_model
    by_cases h1 : pt = "classification" <;>
      by_cases h2 : mc.algorithm.getD "random_forest" = "random_forest" <;>
        by_cases h3 : mc.algorithm.getD "random_forest" = "logistic_regression" <;>
          by_cases h4 : mc.algorithm.getD "random_forest" = "linear_regression" <;>
            by_cases h5 : mc.algorithm.getD "random_forest" = "svm" <;>
              simp [h1, h2, h3, h4, h5, SkModel.hyper]

/-- C5 witness: the unknown algorithm id `boosted_trees` falls back to the
random forest for both problem types, carrying its parameters verbatim. -/
theorem c5_model_selector_fallback_witness :
    get_model ⟨some "boosted_trees", some [("n_estimators", "100")], none, none⟩
        "classification"
      = .RandomForestClassifier [("n_estimators", "100")] ∧
    get_model ⟨some "boosted_trees", some [("n_estimators", "100")], none, none⟩
        "regression"
      = .RandomForestRegressor [("n_estimators", "100")] ∧
    (get_model ⟨some "svm", some [("C", "2")], none, none⟩
        "classification").hyper = [("C", "2")] :=
  ⟨(c5_model_selector_fallback "boosted_trees" [("n_estimators", "100")]
      ⟨none, none, none, none⟩).1 (by decide),
   (c5_model_selector_fallback "boosted_trees" [("n_estimators", "100")]
      ⟨none, none, none, none⟩).2.1 (by decide),
   (c5_model_selector_fallback "x" []
      ⟨some "svm", some [("C", "2")], none, none⟩).2.2 "classification"⟩

/-- C6: imputation changes exactly the missing cells.  Column names and
order are preserved; in a numeric column whose mean exists every missing cell
becomes the column mean (computed over the full pre-split column) and every
present cell is unchanged; a numeric cell that is present is unchanged even
when the mean does not exist; in an object column every missing cell becomes
the column mode, or the literal string `unknown` when no mode exists, and
every present cell is unchanged. -/
theorem c6_imputation (X : DataFrame) :
    ((handle_missing X).columns = X.columns) ∧
    (∀ (i : ℕ) (n : String) (vs : List (Option ℚ)),
        X.cols[i]? = some (n, Col.num vs) →
        (handle_missing X).cols[i]? = some (n, Col.num (fill_numeric vs))) ∧
    (∀ (vs : List (Option ℚ)) m, col_mean vs = some m →
        fill_numeric vs = vs.map (fun c => some (c.getD m))) ∧
    (∀ (vs : List (Option ℚ)) (j : ℕ) x, vs[j]? = some (some x) →
        (fill_numeric vs)[j]? = some (some x)) ∧
    (∀ (i : ℕ) (n : String) (vs : List (Option String)),
        X.cols[i]? = some (n, Col.str vs) →
        (handle_missing X).cols[i]? = some (n, Col.str (fill_object vs))) ∧
    (∀ (vs : List (Option String)),
        fill_object vs
          = vs.map (fun c => some (c.getD ((col_mode vs).getD "unknown")))) := by
  refine ⟨?_, ?_, ?_, ?_, ?_, ?_⟩
  · simp [handle_missing, DataFrame.columns]
  · intro i n vs h
    simp [handle_missing, List.getElem?_map, h, impute_col]
  · intro vs m h
    simp [fill_numeric, h]
  · intro vs j x h
    unfold fill_numeric
    cases hm : col_mean vs with
    | none => simpa using h
    | some m => simp [List.getElem?_map, h]
  · intro i n vs h
    simp [handle_missing, List.getElem?_map, h, impute_col]
  · intro vs
    rfl

/-- C6 witness: a concrete table with one numeric and one object column,
each with a missing cell; the numeric hole becomes the column mean 2, the
object hole becomes the column mode `b`. -/
theorem c6_imputation_witness :
    col_mean [some 1, none, some 3] = some 2 ∧
    fill_numeric [some 1, none, some 3] = [some 1, some 2, some 3] ∧
    (handle_missing
        ⟨[("x", Col.num [some 1, none, some 3]),
          ("c", Col.str [some "b", none, some "b", some "a"])]⟩).cols[1]?
      = some ("c", Col.str (fill_object [some "b", none, some "b", some "a"])) ∧
    fill_object [some "b", none, some "b", some "a"]
      = [some "b", some "b", some "b", some "a"] :=
  ⟨by with_unfolding_all decide,
   by
    rw [(c6_imputation ⟨[]⟩).2.2.1 [some 1, none, some 3] 2
      (by with_unfolding_all decide)]
    with_unfolding_all decide,
   (c6_imputation
      ⟨[("x", Col.num [some 1, none, some 3]),
        ("c", Col.str [some "b", none, some "b", some "a"])]⟩).2.2.2.2.1
     1 "c" [some "b", none, some "b", some "a"] (by decide),
   by decide⟩

/-- C9: for every table with at least one column, target selection succeeds;
the names `target`, `label`, `y`, `class` are tried in that exact order, and
when none of them occurs the last column is designated; the chosen column is
excluded from the feature set. -/
theorem c9_target_selection (df : DataFrame) (hne : df.columns ≠ []) :
    (identify_target df.columns).isSome = true ∧
    ("target" ∈ df.columns → identify_target df.columns = some "target") ∧
    ("target" ∉ df.columns → "label" ∈ df.columns →
        identify_target df.columns = some "label") ∧
    ("target" ∉ df.columns → "label" ∉ df.columns → "y" ∈ df.columns →
        identify_target df.columns = some "y") ∧
    ("target" ∉ df.columns → "label" ∉ df.columns → "y" ∉ df.columns →
        "class" ∈ df.columns → identify_target df.columns = some "class") ∧
    ("target" ∉ df.columns → "label" ∉ df.columns → "y" ∉ df.columns →
        "class" ∉ df.columns →
        identify_target df.columns = df.columns.getLast?) ∧
    (∀ t, identify_target df.columns = some t →
        (df.drop t).columns = df.columns.filter (fun c => c ≠ t)) := by
  have hlast : (df.columns.getLast?).isSome = true := by
    cases h : df.columns.getLast? with
    | none => exact absurd (List.getLast?_eq_none_iff.mp h) hne
    | some _ => rfl
  refine ⟨?_, ?_, ?_, ?_, ?_, ?_, ?_⟩
  · unfold identify_target potential_targets
    split_ifs with h1
    · rfl
    · cases hf : List.find? (fun c => decide (c ∈ df.columns))
          ["target", "label", "y", "class"] with
      | none => simpa [hf] using hlast
      | some c => simp [hf]
  · intro h
    simp [identify_target, h]
  · intro h1 h2
    simp [identify_target, potential_targets, List.find?, h1, h2]
  · intro h1 h2 h3
    simp [identify_target, potential_targets, List.find?, h1, h2, h3]
  · intro h1 h2 h3 h4
    simp [identify_target, potential_targets, List.find?, h1, h2, h3, h4]
  · intro h1 h2 h3 h4
    simp [identify_target, potential_targets, List.find?, h1, h2, h3, h4]
  · intro t _
    simp [DataFrame.drop, DataFrame.columns, List.filter_map]
    rfl

/-- C9 witness: on columns `["a", "label", "b"]` (no `target` column) the
selector picks `label`, and dropping it leaves the features `["a", "b"]`. -/
theorem c9_target_selection_witness :
    identify_target ["a", "label", "b"] = some "label" ∧
    ((⟨[("a", Col.num []), ("label", Col.num []), ("b", Col.num [])]⟩ :
        DataFrame).drop "label").columns = ["a", "b"] :=
  ⟨(c9_target_selection
      ⟨[("a", Col.num []), ("label", Col.num []), ("b", Col.num [])]⟩
      (by decide)).2.2.1 (by decide) (by decide),
   by
    rw [(c9_target_selection
        ⟨[("a", Col.num []), ("label", Col.num []), ("b", Col.num [])]⟩
        (by decide)).2.2.2.2.2.2 "label"
        ((c9_target_selection
          ⟨[("a", Col.num []), ("label", Col.num []), ("b", Col.num [])]⟩
          (by decide)).2.2.1 (by decide) (by decide))]
    decide⟩

/-! ### Helper lemmas shared by the stage-level claims -/

theorem handle_missing_columns (X : DataFrame) :
    (handle_missing X).columns = X.columns := by
  simp [handle_missing, DataFrame.columns]

theorem number_columns_encode (Y : DataFrame) :
    number_columns (encode_categoricals Y) = Y.columns := by
  rcases Y with ⟨cols⟩
  unfold number_columns encode_categoricals DataFrame.columns
  induction cols with
  | nil => rfl
  | cons p ps ih =>
    rcases p with ⟨n, c⟩
    cases c <;> simpa [Col.is_number] using ih

theorem object_columns_subset (Y : DataFrame) :
    ∀ c ∈ object_columns Y, c ∈ Y.columns := by
  intro c hc
  unfold object_columns at hc
  obtain ⟨p, hp, rfl⟩ := List.mem_map.mp hc
  exact List.mem_map_of_mem Prod.fst (List.mem_of_mem_filter hp)

theorem preprocess_success_inv (df : DataFrame) (cfg : PipelineConfig)
    (out : PreprocessOutcome) (w : List String)
    (h : preprocess_data (some df) cfg = .success out w) :
    (∃ t, identify_target df.columns = some t ∧
        out = preprocess_outcome df cfg t) ∧
    w = preprocessing_writes out.has_scaler out.has_label_encoders
          out.has_target_encoder := by
  simp only [preprocess_data] at h
  cases hc : preprocess_core df cfg with
  | error e => rw [hc] at h; cases h
  | ok o =>
    rw [hc] at h
    injection h with h1 h2
    subst h1
    subst h2
    refine ⟨?_, rfl⟩
    unfold preprocess_core at hc
    split at hc
    · cases hc
    · rename_i t hi
      split_ifs at hc with g1 g2 g3 g4 g5
      first
        | exact ⟨t, hi, rfl⟩
        | (injection hc with hh; exact ⟨t, hi, hh.symm⟩)

/-! ### Sample inputs used by concrete counterexamples and witnesses -/

/-- An empty configuration file: every key falls back to its code default
(output root `./outputs`, `test_size` 0.2, `random_state` 42). -/
def sample_config : PipelineConfig := ⟨none, none, none⟩

/-- Ten rows, one numeric feature, binary numeric target with five members
per class: every split validation passes (`n_test = 2` and `n_train = 8`
are both at least the 2 classes, and each class has at least 2 members). -/
def df8 : DataFrame :=
  ⟨[("x", Col.num [some 1, some 2, some 3, some 4, some 5, some 6, some 7,
      some 8, some 9, some 10]),
    ("target", Col.num [some 0, some 0, some 0, some 0, some 0, some 1,
      some 1, some 1, some 1, some 1])]⟩

/-- The successful outcome of preprocessing `df8` under `sample_config`. -/
def out8 : PreprocessOutcome :=
  ⟨⟨"target", ["x"], [], ["x"], (8, 1), (2, 1), 1 / 5, 42, none⟩,
    ["x"], true, false, false⟩

/-- The write sequence of preprocessing `df8`: metadata precedes the scaler
pickle. -/
def w8 : List String :=
  ["preprocessing/X_train.csv", "preprocessing/X_test.csv",
   "preprocessing/y_train.csv", "preprocessing/y_test.csv",
   "preprocessing/preprocessing_metadata.json", "preprocessing/scaler.pkl"]

/-- Three rows with a minority target class of one member: the requested
sizes are fine (`n_test = 1`, `n_train = 2`), so the splitter reaches the
least-populated-class check and rejects the one-member class. -/
def df7 : DataFrame :=
  ⟨[("x", Col.num [some 1, some 2, some 3]),
    ("target", Col.num [some 0, some 0, some 1])]⟩

/-- Ten rows with one categorical feature and a numeric binary target with
five members per class: every split validation passes. -/
def df10 : DataFrame :=
  ⟨[("color", Col.str [some "red", some "blue", some "red", some "blue",
      some "red", some "blue", some "red", some "blue", some "red",
      some "blue"]),
    ("target", Col.num [some 0, some 0, some 0, some 0, some 0, some 1,
      some 1, some 1, some 1, some 1])]⟩

/-- The successful outcome of preprocessing `df10` under `sample_config`:
the encoded categorical column `color` is itself the numeric column set. -/
def out10 : PreprocessOutcome :=
  ⟨⟨"target", ["color"], ["color"], ["color"], (8, 1), (2, 1), 1 / 5, 42, none⟩,
    ["color"], true, true, false⟩

/-- The write sequence of preprocessing `df10`. -/
def w10 : List String :=
  ["preprocessing/X_train.csv", "preprocessing/X_test.csv",
   "preprocessing/y_train.csv", "preprocessing/y_test.csv",
   "preprocessing/preprocessing_metadata.json", "preprocessing/scaler.pkl",
   "preprocessing/label_encoders.pkl"]

/-- C3 counterexample: against an output root with no artifacts at all
(`preprocessing/X_train.csv` absent), the Training stage does fail with exit
code 1, but the failure is not a distinguishable MissingArtifact one — the
stage has no precondition check, so the claim's "distinguishable
MissingArtifact message (not a generic exception)" is false: what surfaces
is the generic `FileNotFoundError` of the first read. -/
theorem c3_missing_xtrain_counterexample :
    "preprocessing/X_train.csv" ∉ ([] : List String) ∧
    (train_model []).exitCode = 1 ∧
    is_missing_artifact_failure (train_model []) = false := by
  decide

/-- C3 (amended): for every output root lacking `preprocessing/X_train.csv`,
the Training stage yields a Failed outcome whose message is the generic
`FileNotFoundError` text of the first read (there is no precondition check
and no MissingArtifact tag), the process exits with code 1, and no artifact
is written under `model_training/`. -/
theorem c3_missing_xtrain_amended (fs : List String)
    (h : "preprocessing/X_train.csv" ∉ fs) :
    train_model fs
      = .failure (.pyError (fnf_msg "preprocessing/X_train.csv")) [] ∧
    (train_model fs).exitCode = 1 ∧
    (train_model fs).writtenPaths = [] := by
  have hr : train_model fs
      = .failure (.pyError (fnf_msg "preprocessing/X_train.csv")) [] := by
    unfold train_model training_reads
    simp [List.find?, h]
  exact ⟨hr, by rw [hr]; rfl, by rw [hr]; rfl⟩

/-- C3 witness: an output root holding only `preprocessing/X_test.csv`. -/
theorem c3_missing_xtrain_witness :
    "preprocessing/X_train.csv" ∉ ["preprocessing/X_test.csv"] ∧
    train_model ["preprocessing/X_test.csv"]
      = .failure (.pyError (fnf_msg "preprocessing/X_train.csv")) [] :=
  ⟨by decide,
   (c3_missing_xtrain_amended ["preprocessing/X_test.csv"] (by decide)).1⟩

/-- C4 counterexample: a failing Preprocessing invocation emits zero
structured error records (its `except` block only prints a human-readable
stdout line), refuting "every stage emits exactly one structured error
record ... uniformly across all five stages". -/
theorem c4_error_record_counterexample :
    structured_error_records (preprocessing_error_output "boom") = 0 ∧
    structured_error_records (preprocessing_error_output "boom") ≠ 1 := by
  decide

/-- C4 (amended): on failure only the data-ingestion stage emits a
structured error record — exactly one, on the secondary (stderr) channel,
carrying status `error`, the stage name, the message and the traceback; the
preprocessing, training, evaluation and deployment stages emit none. -/
theorem c4_error_record_amended (msg tb : String) :
    structured_error_records (data_ingestion_error_output msg tb) = 1 ∧
    (Channel.stderr, Msg.record "error" "data_ingestion" msg tb)
      ∈ data_ingestion_error_output msg tb ∧
    structured_error_records (preprocessing_error_output msg) = 0 ∧
    structured_error_records (model_training_error_output msg) = 0 ∧
    structured_error_records (evaluation_error_output msg) = 0 ∧
    structured_error_records (deployment_error_output msg) = 0 := by
  refine ⟨rfl, ?_, rfl, rfl, rfl, rfl⟩
  simp [data_ingestion_error_output]

/-- C7: whenever the stratified split is infeasible because some target
class has fewer than 2 members, and control reaches that check (a target
column was identified, the scaler accepted its input, and the requested
sizes do not already leave the train set empty — sklearn validates that
first), the Preprocessing stage reports a failure whose message is the
stratification-infeasibility text — the degenerate case is caught at the
stage boundary and reported, not an uncaught crash — with exit code 1 and
nothing written. -/
theorem c7_split_error (df : DataFrame) (cfg : PipelineConfig) (t : String)
    (h1 : identify_target df.columns = some t)
    (h2 : scaler_nan_guard (encode_categoricals (handle_missing (df.drop t)))
        = false)
    (h3 : split_n_train (config_test_size cfg)
        (encode_target (df.getCol t)).1.length ≠ 0)
    (h4 : stratify_infeasible (encode_target (df.getCol t)).1 = true) :
    preprocess_data (some df) cfg = .failure (.pyError split_error_msg) [] ∧
    (preprocess_data (some df) cfg).exitCode = 1 ∧
    (preprocess_data (some df) cfg).writtenPaths = [] := by
  have hr : preprocess_core df cfg = .error (.pyError split_error_msg) := by
    unfold preprocess_core
    rw [h1]
    simp [h2, h3, h4]
  have hres : preprocess_data (some df) cfg
      = .failure (.pyError split_error_msg) [] := by
    simp only [preprocess_data, hr]
  exact ⟨hres, by rw [hres]; rfl, by rw [hres]; rfl⟩

/-- C7 witness: a three-row table whose target has a one-member class. -/
theorem c7_split_error_witness :
    stratify_infeasible (encode_target (df7.getCol "target")).1 = true ∧
    preprocess_data (some df7) sample_config
      = .failure (.pyError split_error_msg) [] :=
  ⟨by with_unfolding_all decide,
   (c7_split_error df7 sample_config "target"
      (by with_unfolding_all decide) (by with_unfolding_all decide)
      (by with_unfolding_all decide) (by with_unfolding_all decide)).1⟩

/-- C8 counterexample: on a concrete successful run that fits a scaler,
`preprocessing_metadata.json` is written strictly before `scaler.pkl`, so
the metadata file is NOT written only after every fitted transform object
has been persisted. -/
theorem c8_metadata_order_counterexample :
    preprocess_data (some df8) sample_config = .success out8 w8 ∧
    "preprocessing/scaler.pkl" ∈ w8 ∧
    w8.indexOf "preprocessing/preprocessing_metadata.json"
      < w8.indexOf "preprocessing/scaler.pkl" := by
  with_unfolding_all decide

/-- C8 (amended): in every successful Preprocessing run the write order is:
the four split payload files, then `preprocessing_metadata.json`, then the
fitted transform objects that exist (scaler, per-column encoders, target
encoder) — i.e. the metadata follows all split payloads but precedes the
transform pickles; in the Training stage `model_metadata.json` is written
only after all its payload artifacts. -/
theorem c8_metadata_order_amended (df : DataFrame) (cfg : PipelineConfig)
    (out : PreprocessOutcome) (w : List String)
    (h : preprocess_data (some df) cfg = .success out w) :
    w = preprocessing_writes out.has_scaler out.has_label_encoders
          out.has_target_encoder ∧
    (∀ p ∈ ["preprocessing/X_train.csv", "preprocessing/X_test.csv",
            "preprocessing/y_train.csv", "preprocessing/y_test.csv"],
        w.indexOf p < w.indexOf "preprocessing/preprocessing_metadata.json") ∧
    (out.has_scaler = true →
        w.indexOf "preprocessing/preprocessing_metadata.json"
          < w.indexOf "preprocessing/scaler.pkl") ∧
    (out.has_label_encoders = true →
        w.indexOf "preprocessing/preprocessing_metadata.json"
          < w.indexOf "preprocessing/label_encoders.pkl") ∧
    (out.has_target_encoder = true →
        w.indexOf "preprocessing/preprocessing_metadata.json"
          < w.indexOf "preprocessing/target_encoder.pkl") ∧
    model_training_writes.indexOf "model_training/trained_model.pkl"
      < model_training_writes.indexOf "model_training/model_metadata.json" ∧
    model_training_writes.indexOf "model_training/predictions.csv"
      < model_training_writes.indexOf "model_training/model_metadata.json" ∧
    model_training_writes.indexOf "model_training/training_metrics.json"
      < model_training_writes.indexOf "model_training/model_metadata.json" := by
  obtain ⟨-, rfl⟩ := preprocess_success_inv df cfg out w h
  refine ⟨rfl, ?_, ?_, ?_, ?_, ?_, ?_, ?_⟩ <;>
    cases out.has_scaler <;>
      cases out.has_label_encoders <;>
        cases out.has_target_encoder <;>
          decide

/-- C8 witness: the concrete run on `df8` satisfies the amended write-order
description. -/
theorem c8_metadata_order_witness :
    preprocess_data (some df8) sample_config = .success out8 w8 ∧
    w8 = preprocessing_writes out8.has_scaler out8.has_label_encoders
          out8.has_target_encoder :=
  ⟨by with_unfolding_all decide,
   (c8_metadata_order_amended df8 sample_config out8 w8
      (by with_unfolding_all decide)).1⟩

/-- C10: in every successful Preprocessing run the recorded numeric column
set is computed after label-encoding replaced the categorical columns, so it
equals the full feature column set; hence the persisted
`categorical_columns` is a subset of `numeric_columns` (not disjoint from
it), and every encoded categorical column belongs to the column set the
fitted scaler was applied to. -/
theorem c10_numeric_after_encoding (df : DataFrame) (cfg : PipelineConfig)
    (out : PreprocessOutcome) (w : List String)
    (h : preprocess_data (some df) cfg = .success out w) :
    out.metadata.numeric_columns = out.metadata.feature_columns ∧
    (∀ c ∈ out.metadata.categorical_columns,
        c ∈ out.metadata.numeric_columns) ∧
    (∀ c ∈ out.metadata.categorical_columns, c ∈ out.scaled_columns) := by
  obtain ⟨⟨t, hi, rfl⟩, -⟩ := preprocess_success_inv df cfg out w h
  have heq : number_columns (encode_categoricals (handle_missing (df.drop t)))
      = (df.drop t).columns := by
    rw [number_columns_encode, handle_missing_columns]
  have hmem : ∀ c ∈ object_columns (handle_missing (df.drop t)),
      c ∈ number_columns (encode_categoricals (handle_missing (df.drop t))) := by
    intro c hc
    rw [heq, ← handle_missing_columns]
    exact object_columns_subset _ c hc
  refine ⟨?_, ?_, ?_⟩
  · show number_columns (encode_categoricals (handle_missing (df.drop t)))
        = (df.drop t).columns
    exact heq
  · intro c hc
    exact hmem c hc
  · intro c hc
    have hcn := hmem c hc
    show c ∈ (if !(number_columns (encode_categoricals
        (handle_missing (df.drop t)))).isEmpty
      then number_columns (encode_categoricals (handle_missing (df.drop t)))
      else [])
    have hne : (number_columns (encode_categoricals
        (handle_missing (df.drop t)))).isEmpty = false := by
      cases hE : (number_columns (encode_categoricals
          (handle_missing (df.drop t)))).isEmpty
      · rfl
      · rw [List.isEmpty_iff] at hE
        rw [hE] at hcn
        cases hcn
    rw [hne]
    simpa using hcn

/-- C10 witness: preprocessing `df10` succeeds; the numeric column set
equals the feature set, and the encoded categorical column `color` is
scaled. -/
theorem c10_numeric_after_encoding_witness :
    preprocess_data (some df10) sample_config = .success out10 w10 ∧
    out10.metadata.numeric_columns = out10.metadata.feature_columns ∧
    "color" ∈ out10.scaled_columns :=
  ⟨by with_unfolding_all decide,
   (c10_numeric_after_encoding df10 sample_config out10 w10
      (by with_unfolding_all decide)).1,
   (c10_numeric_after_encoding df10 sample_config out10 w10
      (by with_unfolding_all decide)).2.2 "color"
     (by with_unfolding_all decide)⟩

end AIPipeline
